import Mathlib

set_option maxHeartbeats 1000000

/-!
Verification development for the OneBot V11 adapter
(`src/nonebot/adapters/onebot/v11/adapter.py`).

The file shallowly embeds the adapter's data model and operations:

* JSON payloads are an inductive `JSON` type; Python truthiness and the
  `str()` conversion used by f-strings are `truthy` and `pyStr`.
* Python dicts keyed by strings are association lists accessed with
  `dict_get` / updated with `dict_set` (assignment replaces the entry for
  an existing key, so a table never holds two entries for one key).
* The event-model trie (`pygtrie.StringTrie` with separator `"."`) is a
  list of (segment-list, parser) pairs; `trie_prefixes` reproduces the
  trie's `prefixes` traversal (every registered key that is a prefix of
  the query key, visited shortest-first), and `get_event_model` is the
  adapter's method (which reverses that traversal, longest-first).
  The leading `"."` sentinel that the adapter prepends to every key and
  every query is common to both sides and is dropped from the embedding;
  key strings are split at `"."` by `split_dot`, a structurally recursive
  model of the separator splitting done by the trie (and of Python
  `str.split(".")`).
* Raw request/response bodies are a `Body`: `empty` is a present but
  empty payload (falsy in Python, and `json.loads` raises on it),
  `invalid` is a non-empty payload rejected by `json.loads`, and
  `json j` is a payload that decodes to `j`.  This abstracts the byte
  string together with the behavior of `json.loads` on it.
* Fallible handlers return `Except`/`Option`; an `Except.error` marks an
  exception escaping the Python function.
* `hmac.new(secret, body, "sha1").hexdigest()` is an abstract parameter
  `hmacHex : String → Body → String` threaded through the definitions.
* Event-schema classes are their `parse_obj` validators
  (`JSON → Option E`, `none` meaning pydantic validation failed).

Repository modules that are imported by `adapter.py` but are not under
`src/` (`utils.py`, the framework bot table) are modelled from the spec;
each such definition carries a doc comment saying so.
-/

/-- A JSON value.  Numbers are modelled as integers: no claim in this
development depends on non-integral numerics. -/
inductive JSON where
  | null
  | bool (b : Bool)
  | num (n : Int)
  | str (s : String)
  | arr (elems : List JSON)
  | obj (fields : List (String × JSON))

/-- Python truthiness of a JSON value (`if value:`): `None`, `False`,
`0`, `""`, `[]` and `{}` are falsy, everything else truthy. -/
def truthy : JSON → Bool
  | .null => false
  | .bool b => b
  | .num n => n != 0
  | .str s => s != ""
  | .arr l => !l.isEmpty
  | .obj l => !l.isEmpty

/-- Python `str()` of a JSON value, as used by the f-string
`f"{post_type}_type"` and `f".{detail_type}"`.  The composite reprs are
abbreviated; no theorem below applies `pyStr` to a non-string value (the
claims about classification paths hypothesise string-valued fields). -/
def pyStr : JSON → String
  | .null => "None"
  | .bool true => "True"
  | .bool false => "False"
  | .num n => toString n
  | .str s => s
  | .arr _ => "[list]"
  | .obj _ => "[dict]"

/-- Python `d.get(key)` on a dict modelled as an association list. -/
def dict_get {κ α : Type} [DecidableEq κ] : List (κ × α) → κ → Option α
  | [], _ => none
  | (k, v) :: rest, key => if k = key then some v else dict_get rest key

/-- Python `d[key] = v`: replaces the entry for `key` if present, else
appends a fresh entry.  A table built with `dict_set` keeps at most one
entry per key. -/
def dict_set {κ α : Type} [DecidableEq κ] (key : κ) (v : α) :
    List (κ × α) → List (κ × α)
  | [] => [(key, v)]
  | (k, w) :: rest =>
    if k = key then (k, v) :: rest else (k, w) :: dict_set key v rest

/-- Python `d.pop(key, None)`: drops the entry for `key` if present. -/
def dict_pop {κ α : Type} [DecidableEq κ] (key : κ) :
    List (κ × α) → List (κ × α)
  | [] => []
  | (k, w) :: rest =>
    if k = key then rest else (k, w) :: dict_pop key rest

/-- Truthiness of an optional header value (`if not header:` in Python
treats both an absent header and an empty one as falsy). -/
def py_truthy : Option String → Bool
  | none => false
  | some s => s != ""

/-- Splitting a list of characters at `'.'`; accumulator holds the
current segment reversed. -/
def split_dot_aux : List Char → List Char → List String
  | [], acc => [String.mk acc.reverse]
  | c :: rest, acc =>
    if c = '.' then String.mk acc.reverse :: split_dot_aux rest []
    else split_dot_aux rest (c :: acc)

/-- The `"."`-separated segments of a key string, as computed by
`pygtrie.StringTrie(separator=".")` for its keys and queries (and by
Python `str.split(".")`): `split_dot "a.b" = ["a", "b"]`,
`split_dot "" = [""]`. -/
def split_dot (s : String) : List String := split_dot_aux s.data []

/-- A raw request or response body together with the behavior of
`json.loads` on it; see the header comment. -/
inductive Body where
  | empty
  | invalid
  | json (j : JSON)

/-- An HTTP response as built by `Response(status, content=...)`. -/
structure Response where
  status : Nat
  content : Option String

/-- The parts of an inbound HTTP/WebSocket handshake request the adapter
reads: the `X-Self-ID`, `X-Signature` and `Authorization` headers and the
body. -/
structure HttpRequest where
  selfId : Option String
  signature : Option String
  authorization : Option String
  content : Option Body

/-- The adapter configuration fields used by the handlers:
`onebot_secret` and `onebot_access_token`. -/
structure OBConfig where
  secret : Option String
  accessToken : Option String

/-- The adapter's connection-related mutable state: the framework bot
table `self.bots` (identities with a live logical bot) and the connection
registry `self.connections` (identity → WebSocket, connections named by
numbers). -/
structure AdapterState where
  bots : List String
  connections : List (String × Nat)

/-- The event-model registry: the content of the `event_models`
`StringTrie`.  Keys are the `"."`-split segments of the registered
`__event__` name; values are the models' `parse_obj` validators. -/
abbrev Registry (E : Type) := List (List String × (JSON → Option E))

/-- The trie's `prefixes(key)` traversal used on line 401 of the source:
every registered key that is a prefix of the query key, visited from the
shortest prefix to the longest (root-to-leaf order). -/
def trie_prefixes {E : Type} (reg : Registry E) (q : List String) :
    List (JSON → Option E) :=
  (List.range (q.length + 1)).filterMap (fun n => dict_get reg (q.take n))

/-- `Adapter.get_event_model` (source lines 390-403): the candidates for
an event name are the trie's prefix traversal reversed, i.e. ordered from
the longest registered matching key to the shortest. -/
def get_event_model {E : Type} (reg : Registry E) (event_name : String) :
    List (JSON → Option E) :=
  (trie_prefixes reg (split_dot event_name)).reverse

/-- The classification-path computation inlined in `json_to_event`
(source lines 360-365): `post_type`, then `"." + detail` where detail is
read from the field `f"{post_type}_type"` if truthy, then `"." + sub`
from the field `sub_type` if truthy.  A non-string `post_type` makes the
Python string concatenation raise `TypeError`, which the enclosing
`try` of `json_to_event` turns into "no event": modelled as `none`. -/
def classify (fields : List (String × JSON)) : Option String :=
  match dict_get fields "post_type" with
  | none => none
  | some pt =>
    let dstr :=
      match dict_get fields (pyStr pt ++ "_type") with
      | some v => if truthy v then "." ++ pyStr v else ""
      | none => ""
    let sstr :=
      match dict_get fields "sub_type" with
      | some v => if truthy v then "." ++ pyStr v else ""
      | none => ""
    match pt with
    | .str s => some (s ++ dstr ++ sstr)
    | _ => none

/-- The `for model in models: try ... break / except ... continue` loop of
`json_to_event` (source lines 366-371): attempt each candidate in order,
accept the first whose validation succeeds. -/
def first_valid {E : Type} : List (JSON → Option E) → JSON → Option E
  | [], _ => none
  | m :: ms, j =>
    match m j with
    | some e => some e
    | none => first_valid ms j

/-- Result of `Adapter.json_to_event`: a parsed event, or a payload
stored into the `ResultStore` (no `post_type` field and a known
`self_id`), or nothing (non-dict payload, unmatched API result, or a
parse failure that the function logs and swallows). -/
inductive J2EResult (E : Type) where
  | event (e : E)
  | stored (selfId : String) (payload : JSON)
  | nothing

/-- `Adapter.json_to_event` (source lines 347-382).  Non-dict payloads
yield nothing; a dict without `post_type` is routed to the result store
when `self_id` is known; otherwise the payload is classified, the
candidates from `get_event_model` are tried in order, the base `Event`
validator (`base`) is the fallback, and any remaining failure is caught
and logged, yielding nothing.  The function is total: no exception
reaches its caller. -/
def json_to_event {E : Type} (reg : Registry E) (base : JSON → Option E)
    (j : JSON) (self_id : Option String) : J2EResult E :=
  match j with
  | .obj fields =>
    if (dict_get fields "post_type").isSome then
      match classify fields with
      | some path =>
        match first_valid (get_event_model reg path) (.obj fields) with
        | some e => .event e
        | none =>
          match base (.obj fields) with
          | some e => .event e
          | none => .nothing
      | none => .nothing
    else
      match self_id with
      | some sid => .stored sid (.obj fields)
      | none => .nothing
  | _ => .nothing

/-- Modelled from the spec: `get_auth_bearer` lives in the repository's
`utils` module, which is not under `src/`.  The spec (§6) describes the
header as `Authorization: Bearer <token>`; the extractor returns the
token when the header carries that scheme and nothing otherwise. -/
def get_auth_bearer (auth : Option String) : Option String :=
  match auth with
  | none => none
  | some s => if s.startsWith "Bearer " then some (s.drop 7) else none

/-- `Adapter._check_signature` (source lines 219-239).  Only runs when a
secret is configured (truthy): a missing/empty `X-Signature` header is a
401, a missing body a 400, a signature that differs from
`"sha1=" + hexdigest` a 403; otherwise no response (check passes). -/
def _check_signature (hmacHex : String → Body → String) (cfg : OBConfig)
    (req : HttpRequest) : Option Response :=
  match cfg.secret with
  | none => none
  | some secret =>
    if secret = "" then none
    else if py_truthy req.signature = false then
      some ⟨401, some "Missing Signature"⟩
    else
      match req.content with
      | none => some ⟨400, some "Missing Content"⟩
      | some body =>
        if req.signature.getD "" = "sha1=" ++ hmacHex secret body then none
        else some ⟨403, some "Signature is invalid"⟩

/-- `Adapter._check_access_token` (source lines 241-258).  Only runs when
an access token is configured (truthy): a bearer token differing from it
(including an absent one) is a 403 whose message depends on whether a
token was presented at all. -/
def _check_access_token (cfg : OBConfig) (auth : Option String) :
    Option Response :=
  let token := get_auth_bearer auth
  match cfg.accessToken with
  | none => none
  | some acc =>
    if acc = "" then none
    else if token = some acc then none
    else
      some ⟨403,
        some (if py_truthy token then "Authorization Header is invalid"
              else "Missing Authorization Header")⟩

/-- Outcome of `Adapter._handle_http`: the response handed to the driver
(or the exception escaping the handler), the adapter state afterwards,
and the event dispatched via `asyncio.create_task`, if any. -/
structure HttpOutcome (E : Type) where
  response : Except String Response
  state : AdapterState
  dispatched : Option E

/-- `Adapter._handle_http` (source lines 138-168).  Checks the identity
header, the signature, the access token; then, when a body is present,
runs it through `json.loads` — which is NOT wrapped in a `try`, so a body
that is not valid JSON raises out of the handler (`Except.error`) — and
through `json_to_event` (called without a `self_id`).  When an event is
produced and no bot is registered for the identity, a bot is created and
registered in the bot table (`bot_connect`; the connection registry is
not touched on this path).  On every non-raising path past the checks the
response is 204. -/
def _handle_http {E : Type} (hmacHex : String → Body → String)
    (cfg : OBConfig) (reg : Registry E) (base : JSON → Option E)
    (s : AdapterState) (req : HttpRequest) : HttpOutcome E :=
  if py_truthy req.selfId then
    match _check_signature hmacHex cfg req with
    | some r => ⟨.ok r, s, none⟩
    | none =>
      match _check_access_token cfg req.authorization with
      | some r => ⟨.ok r, s, none⟩
      | none =>
        match req.content with
        | none => ⟨.ok ⟨204, none⟩, s, none⟩
        | some (.json j) =>
          match json_to_event reg base j none with
          | .event e =>
            let sid := req.selfId.getD ""
            if sid ∈ s.bots then ⟨.ok ⟨204, none⟩, s, some e⟩
            else ⟨.ok ⟨204, none⟩, ⟨sid :: s.bots, s.connections⟩, some e⟩
          | _ => ⟨.ok ⟨204, none⟩, s, none⟩
        | some _ => ⟨.error "JSONDecodeError", s, none⟩
  else ⟨.ok ⟨400, some "Missing X-Self-ID Header"⟩, s, none⟩

/-- Result of the reverse-WebSocket handshake: rejected with a close code
and reason, or accepted and registered under an identity. -/
inductive WsResult where
  | closed (code : Nat) (reason : String)
  | accepted (sid : String)

/-- The handshake part of `Adapter._handle_ws` (source lines 170-196):
reject 1008 on a missing/empty identity header; reject 1008 with
"Duplicate X-Self-ID" when the identity is already in the BOT table
(`self_id in self.bots` — note: not the connection registry); reject 1008
with the check's message on a failed access-token check; otherwise accept,
store the WebSocket in the connection registry and register the bot. -/
def _handle_ws (cfg : OBConfig) (s : AdapterState)
    (selfIdH auth : Option String) (ws : Nat) : WsResult × AdapterState :=
  if py_truthy selfIdH then
    let sid := selfIdH.getD ""
    if sid ∈ s.bots then (.closed 1008 "Duplicate X-Self-ID", s)
    else
      match _check_access_token cfg auth with
      | some r => (.closed 1008 (r.content.getD ""), s)
      | none => (.accepted sid, ⟨sid :: s.bots, dict_set sid ws s.connections⟩)
  else (.closed 1008 "Missing X-Self-ID Header", s)

/-- The identity-binding step of `Adapter._forward_ws` (source lines
312-325): on the first lifecycle-connect event the extracted identity is
bound — `self.connections[str(self_id)] = ws` followed by
`self.bot_connect(bot)` — with NO duplicate check: the dict assignment
replaces any existing registry entry for that identity.  (The bot-table
insertion models the framework's `bot_connect` registration, which the
spec describes as announcing the peer.) -/
def forward_handshake (s : AdapterState) (self_id : String) (ws : Nat) :
    AdapterState :=
  ⟨if self_id ∈ s.bots then s.bots else self_id :: s.bots,
   dict_set self_id ws s.connections⟩

/-- Outcome of `Adapter._call_api`: a successful result, a domain-level
`ActionFailed`, a `NetworkError`, or `ApiNotAvailable`. -/
inductive CallOutcome where
  | ok (v : JSON)
  | actionFailed (r : JSON)
  | networkError (msg : String)
  | apiNotAvailable

/-- Modelled from the spec: `_handle_api_result` lives in the repository's
`utils` module, which is not under `src/`.  Spec §4.6: a result object
carrying a non-success status is turned into a domain-level API failure
surfaced to the caller; any other result is the call's value. -/
def _handle_api_result (r : JSON) : CallOutcome :=
  match r with
  | .obj fields =>
    match dict_get fields "status" with
    | some (.str s) => if s = "failed" then .actionFailed r else .ok r
    | _ => .ok r
  | _ => .ok r

/-- An HTTP response from `driver.request` as read by `_call_api`:
status code and body. -/
structure HttpResp where
  status : Nat
  content : Body

/-- The environment of one `_call_api` invocation: the connection
registry, whether the driver supports outbound requests
(`isinstance(self.driver, ForwardDriver)`), the configured per-identity
`api_root` table, the outcome of `ResultStore.fetch` on the WebSocket
path (`Except.error` = timeout), and the outcome of `driver.request` on
the HTTP path (`Except.error` = the request raised). -/
structure CallEnv where
  connections : List (String × Nat)
  isForwardDriver : Bool
  api_root : List (String × String)
  wsFetch : Except Unit JSON
  httpResponse : Except Unit HttpResp

/-- `Adapter._call_api` (source lines 83-136).  With a live WebSocket for
the identity: send and await the correlated result (a fetch timeout is a
`NetworkError`), then apply the result interpretation.  Otherwise, on a
forward-capable driver with a truthy configured `api_root`: POST and read
the response — a non-2xx status is a `NetworkError`, an empty body raises
`ValueError` and an undecodable one raises in `json.loads`, both caught
and re-raised as `NetworkError("HTTP request failed")`; note that on this
path the result interpretation runs INSIDE the same `try`, so an
`ActionFailed` it raises is also re-wrapped into a `NetworkError`.
Otherwise: `ApiNotAvailable`. -/
def _call_api (env : CallEnv) (self_id : String) : CallOutcome :=
  match dict_get env.connections self_id with
  | some _ =>
    match env.wsFetch with
    | .ok r => _handle_api_result r
    | .error _ => .networkError "WebSocket API call timeout"
  | none =>
    if env.isForwardDriver then
      match dict_get env.api_root self_id with
      | none => .apiNotAvailable
      | some root =>
        if root = "" then .apiNotAvailable
        else
          match env.httpResponse with
          | .error _ => .networkError "HTTP request failed"
          | .ok resp =>
            if 200 ≤ resp.status ∧ resp.status < 300 then
              match resp.content with
              | .json r =>
                match _handle_api_result r with
                | .actionFailed _ => .networkError "HTTP request failed"
                | o => o
              | _ => .networkError "HTTP request failed"
            else .networkError "HTTP request received unexpected status code"
    else .apiNotAvailable

/-- A usable HTTP API root for an identity: a configured, non-empty
`api_root` entry (`if not api_root: raise ApiNotAvailable` treats an
empty string like an absent one). -/
def usable_api_root (env : CallEnv) (self_id : String) : Option String :=
  match dict_get env.api_root self_id with
  | none => none
  | some root => if root = "" then none else some root

/-- `RECONNECT_INTERVAL` (source line 32).  The Python float `3.0` is the
rational 3. -/
def RECONNECT_INTERVAL : ℚ := 3

/-- One iteration's outcome in the `_forward_ws` supervisor loop: the
transport connect failed, or it succeeded and the session later ended
with a receive/processing error. -/
inductive LinkOutcome where
  | connectFailure
  | sessionError
deriving DecidableEq

/-- Observable actions of the `_forward_ws` loop: a connect attempt, a
sleep of a given duration, a best-effort close of the transport. -/
inductive LinkAction where
  | attempt
  | sleep (d : ℚ)
  | closeWs
deriving DecidableEq

/-- The control skeleton of `Adapter._forward_ws` (source lines 280-345),
as the trace of actions produced while consuming a finite prefix of the
loop's iteration outcomes.  `while True:` — attempt the connect; on
failure log, `await asyncio.sleep(RECONNECT_INTERVAL)` and `continue`; on
success run the receive loop until an error breaks it, then (in the
`finally`) close the transport and clean up, and sleep
`RECONNECT_INTERVAL` before the next attempt.  No branch leaves the
loop. -/
def forward_ws_trace : List LinkOutcome → List LinkAction
  | [] => []
  | .connectFailure :: rest =>
    .attempt :: .sleep RECONNECT_INTERVAL :: forward_ws_trace rest
  | .sessionError :: rest =>
    .attempt :: .closeWs :: .sleep RECONNECT_INTERVAL :: forward_ws_trace rest

/-- Projection of a handler outcome to the HTTP status actually answered,
`none` when the handler raised instead of answering. -/
def statusOf : Except String Response → Option Nat
  | .ok r => some r.status
  | .error _ => none

/-- Whether a configured secret requires signature checking
(`if secret:`). -/
def secret_configured (cfg : OBConfig) : Bool :=
  match cfg.secret with
  | some s => s != ""
  | none => false

/-- Whether a configured access token requires bearer checking
(`if access_token:`). -/
def token_configured (cfg : OBConfig) : Bool :=
  match cfg.accessToken with
  | some a => a != ""
  | none => false

/-- Spec-side restatement of the (amended) claim C8, written from its
words for the refinement comparison with `_handle_http`: 400 for a
missing/empty identity header, 401 when a secret is configured and the
signature header is missing, 400 when a secret is configured and the body
is missing, 403 for a wrong signature, 403 for a wrong or missing bearer
token when one is configured, 204 when every configured check passes and
the body is absent or valid JSON, and no response at all (the handler
raises) for a present body that is not valid JSON. -/
def specResponseStatus (hmacHex : String → Body → String) (cfg : OBConfig)
    (req : HttpRequest) : Option Nat :=
  if py_truthy req.selfId = false then some 400
  else if secret_configured cfg && (py_truthy req.signature = false) then
    some 401
  else if secret_configured cfg && req.content.isNone then some 400
  else if secret_configured cfg &&
      (req.signature.getD "" ≠
        "sha1=" ++ hmacHex (cfg.secret.getD "") (req.content.getD .empty)) then
    some 403
  else if token_configured cfg &&
      (get_auth_bearer req.authorization ≠ some (cfg.accessToken.getD "")) then
    some 403
  else
    match req.content with
    | none => some 204
    | some (.json _) => some 204
    | some _ => none

/-! ## Helper lemmas -/

theorem dict_get_eq_of_mem {κ α : Type} [DecidableEq κ] {l : List (κ × α)}
    {k : κ} {v : α} (hnd : (l.map Prod.fst).Nodup) (h : (k, v) ∈ l) :
    dict_get l k = some v := by
  induction l with
  | nil => cases h
  | cons p rest ih =>
    obtain ⟨k', v'⟩ := p
    rw [List.map_cons, List.nodup_cons] at hnd
    rcases List.mem_cons.mp h with h | h
    · cases h
      simp [dict_get]
    · have hk : k' ≠ k := by
        intro he
        subst he
        exact hnd.1 (List.mem_map.mpr ⟨(k', v), h, rfl⟩)
      simp [dict_get, hk, ih hnd.2 h]

theorem dict_get_dict_set_self {κ α : Type} [DecidableEq κ] (k : κ) (v : α)
    (l : List (κ × α)) : dict_get (dict_set k v l) k = some v := by
  induction l with
  | nil => simp [dict_set, dict_get]
  | cons p rest ih =>
    obtain ⟨k', v'⟩ := p
    by_cases hk : k' = k
    · subst hk
      simp [dict_set, dict_get]
    · simp [dict_set, dict_get, hk, ih]

theorem mem_map_fst_dict_set {κ α : Type} [DecidableEq κ] (k : κ) (v : α)
    (l : List (κ × α)) (x : κ) :
    x ∈ (dict_set k v l).map Prod.fst ↔ x = k ∨ x ∈ l.map Prod.fst := by
  induction l with
  | nil => simp [dict_set]
  | cons p rest ih =>
    obtain ⟨k', v'⟩ := p
    by_cases hk : k' = k
    · subst hk
      simp [dict_set]
    · simp only [dict_set, if_neg hk, List.map_cons, List.mem_cons, ih]
      tauto

theorem nodup_map_fst_dict_set {κ α : Type} [DecidableEq κ] (k : κ) (v : α)
    (l : List (κ × α)) (hnd : (l.map Prod.fst).Nodup) :
    ((dict_set k v l).map Prod.fst).Nodup := by
  induction l with
  | nil => simp [dict_set]
  | cons p rest ih =>
    obtain ⟨k', v'⟩ := p
    rw [List.map_cons, List.nodup_cons] at hnd
    by_cases hk : k' = k
    · subst hk
      simpa [dict_set, List.nodup_cons] using hnd
    · rw [dict_set, if_neg hk, List.map_cons, List.nodup_cons]
      refine ⟨fun hmem => ?_, ih hnd.2⟩
      rcases (mem_map_fst_dict_set k v rest k').mp hmem with h | h
      · exact hk h
      · exact hnd.1 h

theorem first_valid_decomp {E : Type} (ms : List (JSON → Option E)) (j : JSON)
    (e : E) (h : first_valid ms j = some e) :
    ∃ l₁ m l₂, ms = l₁ ++ m :: l₂ ∧ m j = some e ∧ ∀ m' ∈ l₁, m' j = none := by
  induction ms with
  | nil => simp [first_valid] at h
  | cons m rest ih =>
    rw [first_valid] at h
    cases hm : m j with
    | some e' =>
      rw [hm] at h
      cases h
      exact ⟨[], m, rest, rfl, hm, by simp⟩
    | none =>
      rw [hm] at h
      obtain ⟨l₁, m', l₂, heq, hsome, hall⟩ := ih h
      refine ⟨m :: l₁, m', l₂, by simp [heq], hsome, ?_⟩
      intro x hx
      rcases List.mem_cons.mp hx with hx | hx
      · subst hx
        exact hm
      · exact hall x hx

theorem first_valid_isSome_of_mem {E : Type} {ms : List (JSON → Option E)}
    {m : JSON → Option E} {j : JSON} {e : E} (hm : m ∈ ms)
    (he : m j = some e) : (first_valid ms j).isSome = true := by
  induction ms with
  | nil => cases hm
  | cons m₀ rest ih =>
    rw [first_valid]
    cases h₀ : m₀ j with
    | some e' => simp
    | none =>
      rcases List.mem_cons.mp hm with hm | hm
      · subst hm
        rw [he] at h₀
        cases h₀
      · exact ih hm

theorem handle_api_result_ne_apiNotAvailable (r : JSON) :
    _handle_api_result r ≠ .apiNotAvailable := by
  cases r <;> simp [_handle_api_result]
  case obj fields =>
    cases h : dict_get fields "status" with
    | none => simp
    | some v => cases v <;> simp <;> split <;> simp

/-! ## Claims -/

/-- Claim C3: for registered schema paths `p1` a strict prefix of the
payload's classification path `p2`, the candidate list returned by
`get_event_model` for `p2` contains the schema registered at `p2` before
the schema registered at `p1` (the list is most-specific first), and
`p1`'s schema is attempted before the base schema is ever consulted:
whenever it validates the payload, the candidate scan already produces an
event, so the base fallback of `json_to_event` is not reached. -/
theorem claim_C3_thm {E : Type} (reg : Registry E) (path : String)
    (p1 : List String) (m1 m2 : JSON → Option E)
    (hnd : (reg.map Prod.fst).Nodup)
    (h1 : (p1, m1) ∈ reg) (h2 : (split_dot path, m2) ∈ reg)
    (hpre : p1 <+: split_dot path) (hne : p1 ≠ split_dot path) :
    [m2, m1].Sublist (get_event_model reg path) ∧
      ∀ (j : JSON) (e : E), m1 j = some e →
        (first_valid (get_event_model reg path) j).isSome = true := by
  obtain ⟨t, ht⟩ := hpre
  have htne : t ≠ [] := by
    intro hemp
    apply hne
    rw [← ht, hemp, List.append_nil]
  have hlt : p1.length < (split_dot path).length := by
    rw [← ht, List.length_append]
    have := List.length_pos.mpr htne
    omega
  have htake1 : (split_dot path).take p1.length = p1 := by
    rw [← ht]
    exact List.take_left p1 t
  have htake2 : (split_dot path).take (split_dot path).length = split_dot path :=
    List.take_length (split_dot path)
  have hg1 : dict_get reg ((split_dot path).take p1.length) = some m1 := by
    rw [htake1]
    exact dict_get_eq_of_mem hnd h1
  have hg2 : dict_get reg (split_dot path) = some m2 :=
    dict_get_eq_of_mem hnd h2
  have hidx : [p1.length, (split_dot path).length].Sublist
      (List.range ((split_dot path).length + 1)) := by
    rw [List.range_succ]
    have hsing : [p1.length].Sublist (List.range (split_dot path).length) :=
      List.singleton_sublist.mpr (List.mem_range.mpr hlt)
    exact List.Sublist.append hsing (List.Sublist.refl _)
  have hfm := hidx.filterMap (fun n => dict_get reg ((split_dot path).take n))
  have heval : [p1.length, (split_dot path).length].filterMap
      (fun n => dict_get reg ((split_dot path).take n)) = [m1, m2] := by
    simp [List.filterMap, hg1, htake2, hg2]
  rw [heval] at hfm
  have hrev : [m2, m1].Sublist (get_event_model reg path) := by
    have := hfm.reverse
    simpa [get_event_model, trie_prefixes] using this
  refine ⟨hrev, fun j e he => ?_⟩
  have hm1 : m1 ∈ get_event_model reg path := hrev.subset (by simp)
  exact first_valid_isSome_of_mem hm1 he

/-- Witness for C3 at a concrete registry: models registered at
`["message"]` and `["message", "private"]`, payload path
`"message.private"`. -/
theorem claim_C3_witness :
    ((([(["message"], fun _ => some 1), (["message", "private"], fun _ => some 2)]
        : Registry Nat).map Prod.fst).Nodup) ∧
      [fun _ => some 2, fun _ => some 1].Sublist
        (get_event_model
          [(["message"], fun _ => some 1), (["message", "private"], fun _ => some 2)]
          "message.private") :=
  ⟨by decide,
    (claim_C3_thm
      [(["message"], fun _ => some 1), (["message", "private"], fun _ => some 2)]
      "message.private" ["message"] (fun _ => some 1) (fun _ => some 2)
      (by decide)
      (List.mem_cons_self _ _)
      (List.mem_cons_of_mem _ (List.mem_cons_self _ _))
      ⟨["private"], rfl⟩
      (by decide)).1⟩

/-- Claim C4: for a JSON-object payload with a string-valued
`post_type`, the classification path is the primary type, then `"."` and
the detail type from the field `{post_type}_type` exactly when that field
is present and non-empty, then `"."` and `sub_type` exactly when present
and non-empty; an absent or empty qualifier contributes neither its
segment nor its dot. -/
theorem claim_C4_thm (fields : List (String × JSON)) (pt ds ss : String)
    (hpt : dict_get fields "post_type" = some (.str pt))
    (hd : (dict_get fields (pt ++ "_type") = none ∧ ds = "") ∨
          dict_get fields (pt ++ "_type") = some (.str ds))
    (hs : (dict_get fields "sub_type" = none ∧ ss = "") ∨
          dict_get fields "sub_type" = some (.str ss)) :
    classify fields = some (pt ++ (if ds = "" then "" else "." ++ ds)
      ++ (if ss = "" then "" else "." ++ ss)) := by
  unfold classify
  rw [hpt]
  rcases hd with ⟨hd1, hd2⟩ | hd1 <;> rcases hs with ⟨hs1, hs2⟩ | hs1
  · subst hd2
    subst hs2
    simp [hd1, hs1, pyStr]
  · subst hd2
    by_cases hss : ss = "" <;> simp [hd1, hs1, pyStr, truthy, hss]
  · subst hs2
    by_cases hds : ds = "" <;> simp [hd1, hs1, pyStr, truthy, hds]
  · by_cases hds : ds = "" <;> by_cases hss : ss = "" <;>
      simp [hd1, hs1, pyStr, truthy, hds, hss]

/-- Witness for C4 on a concrete message payload. -/
theorem claim_C4_witness :
    dict_get [("post_type", JSON.str "message"),
        ("message_type", JSON.str "private"), ("sub_type", JSON.str "friend")]
        "post_type" = some (JSON.str "message") ∧
      classify [("post_type", JSON.str "message"),
        ("message_type", JSON.str "private"), ("sub_type", JSON.str "friend")]
        = some "message.private.friend" :=
  ⟨rfl,
    claim_C4_thm _ "message" "private" "friend" rfl (Or.inr rfl) (Or.inr rfl)⟩

/-- Claim C5: for a payload whose classification succeeds with `path`,
`json_to_event` yields an event exactly when either some candidate from
`get_event_model` validates (and then the scan accepts the first one that
does, in list order) or all candidates fail and the base `Event`
validator accepts the payload; when all candidates and the base validator
fail, the result is no event — the failure is swallowed, not raised
(`json_to_event` is total by construction). -/
theorem claim_C5_thm {E : Type} (reg : Registry E) (base : JSON → Option E)
    (fields : List (String × JSON)) (path : String) (sid : Option String)
    (hcl : classify fields = some path) :
    (∀ e, json_to_event reg base (.obj fields) sid = .event e ↔
        (first_valid (get_event_model reg path) (.obj fields) = some e ∨
         (first_valid (get_event_model reg path) (.obj fields) = none ∧
          base (.obj fields) = some e))) ∧
      (∀ (j : JSON) (e : E),
        first_valid (get_event_model reg path) j = some e →
        ∃ l₁ m l₂, get_event_model reg path = l₁ ++ m :: l₂ ∧
          m j = some e ∧ ∀ m' ∈ l₁, m' j = none) ∧
      ((first_valid (get_event_model reg path) (.obj fields) = none ∧
          base (.obj fields) = none) →
        json_to_event reg base (.obj fields) sid = .nothing) := by
  have hpt : (dict_get fields "post_type").isSome = true := by
    cases h : dict_get fields "post_type" with
    | none => rw [classify, h] at hcl; cases hcl
    | some v => rfl
  have key : json_to_event reg base (.obj fields) sid =
      (match first_valid (get_event_model reg path) (.obj fields) with
       | some e => J2EResult.event e
       | none =>
         match base (.obj fields) with
         | some e => J2EResult.event e
         | none => J2EResult.nothing) := by
    simp [json_to_event, hpt, hcl]
  refine ⟨fun e => ?_, fun j e h => first_valid_decomp _ j e h, fun ⟨h1, h2⟩ => ?_⟩
  · rw [key]
    cases hfv : first_valid (get_event_model reg path) (.obj fields) with
    | some e' => simp [hfv]
    | none =>
      cases hb : base (.obj fields) with
      | some e' => simp [hfv, hb]
      | none => simp [hfv, hb]
  · simp [key, h1, h2]

/-- Witness for C5: empty registry, base validator rejecting, so the
payload classified at `"message"` parses to no event (and the scan over
an empty candidate list finds nothing). -/
theorem claim_C5_witness :
    classify [("post_type", JSON.str "message")] = some "message" ∧
      json_to_event ([] : Registry Nat) (fun _ => none)
        (.obj [("post_type", JSON.str "message")]) none = .nothing :=
  ⟨rfl,
    (claim_C5_thm ([] : Registry Nat) (fun _ => none)
      [("post_type", JSON.str "message")] "message" none rfl).2.2 ⟨rfl, rfl⟩⟩

/-- Claim C6: `_call_api` fails with `ApiNotAvailable` exactly when no
channel to the peer exists — no live WebSocket connection for the
identity, and no usable HTTP fallback (either the driver cannot make
outbound requests or no non-empty `api_root` is configured for the
identity).  In particular, with no live connection and no configured
root the call is `ApiNotAvailable`; the failure is computed directly,
with no waiting involved. -/
theorem claim_C6_thm (env : CallEnv) (self_id : String) :
    _call_api env self_id = .apiNotAvailable ↔
      dict_get env.connections self_id = none ∧
        (env.isForwardDriver = false ∨ usable_api_root env self_id = none) := by
  cases hc : dict_get env.connections self_id with
  | some w =>
    cases hwf : env.wsFetch with
    | ok r => simp [_call_api, hc, hwf, handle_api_result_ne_apiNotAvailable r]
    | error u => simp [_call_api, hc, hwf]
  | none =>
    cases hf : env.isForwardDriver with
    | false => simp [_call_api, hc, hf, usable_api_root]
    | true =>
      cases hr : dict_get env.api_root self_id with
      | none => simp [_call_api, hc, hf, usable_api_root, hr]
      | some root =>
        by_cases hroot : root = ""
        · simp [_call_api, hc, hf, usable_api_root, hr, hroot]
        · cases hhttp : env.httpResponse with
          | error u =>
            simp [_call_api, hc, hf, usable_api_root, hr, hroot, hhttp]
          | ok resp =>
            by_cases h2 : 200 ≤ resp.status ∧ resp.status < 300
            · cases hbody : resp.content with
              | json r =>
                cases hh : _handle_api_result r with
                | apiNotAvailable =>
                  exact absurd hh (handle_api_result_ne_apiNotAvailable r)
                | ok v =>
                  simp [_call_api, hc, hf, usable_api_root, hr, hroot, hhttp,
                    h2.1, h2.2, hbody, hh]
                | actionFailed x =>
                  simp [_call_api, hc, hf, usable_api_root, hr, hroot, hhttp,
                    h2.1, h2.2, hbody, hh]
                | networkError m =>
                  simp [_call_api, hc, hf, usable_api_root, hr, hroot, hhttp,
                    h2.1, h2.2, hbody, hh]
              | empty =>
                simp [_call_api, hc, hf, usable_api_root, hr, hroot, hhttp,
                  h2.1, h2.2, hbody]
              | invalid =>
                simp [_call_api, hc, hf, usable_api_root, hr, hroot, hhttp,
                  h2.1, h2.2, hbody]
            · simp [_call_api, hc, hf, usable_api_root, hr, hroot, hhttp, h2]

/-- Claim C7: on the HTTP fallback path (no live WebSocket, forward
driver, usable root), a non-2xx response is a `NetworkError`; a 2xx
response with an empty body is a `NetworkError`; a 2xx response with a
body that decodes to `r` yields the value the uniform result
interpretation assigns to `r`. -/
theorem claim_C7_thm (env : CallEnv) (self_id root : String)
    (hconn : dict_get env.connections self_id = none)
    (hfwd : env.isForwardDriver = true)
    (hroot : dict_get env.api_root self_id = some root) (hr : root ≠ "") :
    (∀ resp, env.httpResponse = .ok resp →
        ¬(200 ≤ resp.status ∧ resp.status < 300) →
        _call_api env self_id =
          .networkError "HTTP request received unexpected status code") ∧
      (∀ resp, env.httpResponse = .ok resp →
        (200 ≤ resp.status ∧ resp.status < 300) → resp.content = .empty →
        _call_api env self_id = .networkError "HTTP request failed") ∧
      (∀ resp r v, env.httpResponse = .ok resp →
        (200 ≤ resp.status ∧ resp.status < 300) → resp.content = .json r →
        _handle_api_result r = .ok v → _call_api env self_id = .ok v) := by
  refine ⟨fun resp hresp h2 => ?_, fun resp hresp h2 hbody => ?_,
    fun resp r v hresp h2 hbody hok => ?_⟩
  · simp [_call_api, hconn, hfwd, hroot, hr, hresp, h2]
  · simp [_call_api, hconn, hfwd, hroot, hr, hresp, h2.1, h2.2, hbody]
  · simp [_call_api, hconn, hfwd, hroot, hr, hresp, h2.1, h2.2, hbody, hok]

/-- Witness for C7: a 2xx response whose body decodes to a result object
with a success status yields that object as the call result. -/
theorem claim_C7_witness :
    dict_get (CallEnv.mk [] true [("1", "http://x/")] (.error ())
        (.ok ⟨200, .json (.obj [("status", JSON.str "ok")])⟩)).connections "1"
      = none ∧
      _call_api (CallEnv.mk [] true [("1", "http://x/")] (.error ())
        (.ok ⟨200, .json (.obj [("status", JSON.str "ok")])⟩)) "1"
      = .ok (.obj [("status", JSON.str "ok")]) :=
  ⟨rfl,
    (claim_C7_thm (CallEnv.mk [] true [("1", "http://x/")] (.error ())
        (.ok ⟨200, .json (.obj [("status", JSON.str "ok")])⟩)) "1" "http://x/"
        rfl rfl rfl (by decide)).2.2
      ⟨200, .json (.obj [("status", JSON.str "ok")])⟩
      (.obj [("status", JSON.str "ok")]) (.obj [("status", JSON.str "ok")])
      rfl (by decide) rfl rfl⟩

/-- Counterexample to claim C1 as stated.  In the state where identity
`"1"` already owns live connection `0`, the forward-link handshake for
the same identity is NOT rejected: it registers the new connection `1`,
replacing the existing registry entry (`self.connections[str(self_id)] =
ws` on line 320 runs with no duplicate check). -/
theorem claim_C1_cx :
    dict_get (forward_handshake ⟨["1"], [("1", 0)]⟩ "1" 1).connections "1"
        = some 1 ∧
      dict_get (AdapterState.mk ["1"] [("1", 0)]).connections "1" = some 0 :=
  ⟨rfl, rfl⟩

/-- Amended claim C1: the connection registry is a map, so it holds at
most one connection per identity (`dict_set` preserves key uniqueness);
a second REVERSE WebSocket attempt whose identity is already registered
in the bot table is rejected with close code 1008 and the state — hence
the original connection — is untouched; but the FORWARD-link handshake
performs no duplicate check and overwrites any existing registry entry
for its identity. -/
theorem claim_C1_amended :
    (∀ (cfg : OBConfig) (s : AdapterState) (sid : String)
        (auth : Option String) (w : Nat), sid ≠ "" → sid ∈ s.bots →
        _handle_ws cfg s (some sid) auth w
          = (.closed 1008 "Duplicate X-Self-ID", s)) ∧
      (∀ (s : AdapterState) (sid : String) (w : Nat),
        dict_get (forward_handshake s sid w).connections sid = some w) ∧
      (∀ (l : List (String × Nat)) (sid : String) (w : Nat),
        (l.map Prod.fst).Nodup → ((dict_set sid w l).map Prod.fst).Nodup) := by
  refine ⟨fun cfg s sid auth w hne hmem => ?_, fun s sid w => ?_,
    fun l sid w hnd => nodup_map_fst_dict_set sid w l hnd⟩
  · simp [_handle_ws, py_truthy, hne, hmem]
  · exact dict_get_dict_set_self sid w s.connections

/-- Witness for the amended C1, exercising all three conjuncts at
concrete states. -/
theorem claim_C1_witness :
    ("1" ≠ "" ∧ "1" ∈ (AdapterState.mk ["1"] [("1", 0)]).bots) ∧
      _handle_ws ⟨none, none⟩ ⟨["1"], [("1", 0)]⟩ (some "1") none 7
        = (.closed 1008 "Duplicate X-Self-ID", ⟨["1"], [("1", 0)]⟩) ∧
      dict_get (forward_handshake ⟨[], []⟩ "2" 3).connections "2" = some 3 ∧
      (((dict_set "b" 2 [("a", 1)]).map Prod.fst).Nodup) :=
  ⟨⟨by decide, by decide⟩,
    claim_C1_amended.1 ⟨none, none⟩ ⟨["1"], [("1", 0)]⟩ "1" none 7
      (by decide) (by decide),
    claim_C1_amended.2.1 ⟨[], []⟩ "2" 3,
    claim_C1_amended.2.2 [("a", 1)] "b" 2 (by decide)⟩

/-- Counterexample to claim C2 as stated.  With no secret and no token
configured (all configured checks pass) and the identity header present,
a request whose body is not valid JSON does NOT get a 204: `json.loads`
on line 158 is not wrapped in a `try`, so the decode error escapes the
handler. -/
theorem claim_C2_cx :
    (_handle_http (fun _ _ => "") ⟨none, none⟩ ([] : Registry Nat)
        (fun _ => none) ⟨[], []⟩ ⟨some "1", none, none, some .invalid⟩).response
      = .error "JSONDecodeError" := rfl

/-- Amended claim C2: once the identity header is present and the
signature and bearer-token checks pass, the handler returns 204 whenever
the body is absent or decodes as JSON — in particular even when event
parsing produces nothing or the dispatched task would fail — but a
present body that `json.loads` rejects raises out of the handler instead
of producing a response. -/
theorem claim_C2_amended {E : Type} (hmacHex : String → Body → String)
    (cfg : OBConfig) (reg : Registry E) (base : JSON → Option E)
    (s : AdapterState) (req : HttpRequest)
    (hid : py_truthy req.selfId = true)
    (hsig : _check_signature hmacHex cfg req = none)
    (htok : _check_access_token cfg req.authorization = none)
    (hbody : req.content = none ∨ ∃ j, req.content = some (.json j)) :
    (_handle_http hmacHex cfg reg base s req).response = .ok ⟨204, none⟩ := by
  rcases hbody with hbody | ⟨j, hbody⟩
  · simp [_handle_http, hid, hsig, htok, hbody]
  · cases hev : json_to_event reg base j none with
    | event e =>
      by_cases hmem : req.selfId.getD "" ∈ s.bots <;>
        simp [_handle_http, hid, hsig, htok, hbody, hev, hmem]
    | stored sid p => simp [_handle_http, hid, hsig, htok, hbody, hev]
    | nothing => simp [_handle_http, hid, hsig, htok, hbody, hev]

/-- Witness for the amended C2: valid-JSON body whose parsing yields no
event still gets a 204. -/
theorem claim_C2_witness :
    py_truthy (some "1") = true ∧
      (_handle_http (fun _ _ => "") ⟨none, none⟩ ([] : Registry Nat)
        (fun _ => none) ⟨[], []⟩
        ⟨some "1", none, none, some (.json (.obj [("post_type", .num 0)]))⟩).response
      = .ok ⟨204, none⟩ :=
  ⟨rfl,
    claim_C2_amended (fun _ _ => "") ⟨none, none⟩ ([] : Registry Nat)
      (fun _ => none) ⟨[], []⟩
      ⟨some "1", none, none, some (.json (.obj [("post_type", .num 0)]))⟩
      rfl rfl rfl (Or.inr ⟨.obj [("post_type", .num 0)], rfl⟩)⟩

/-- Cascade form of `_check_signature`, used to align the handler with
the spec-side status table. -/
theorem check_signature_eq (hmacHex : String → Body → String)
    (cfg : OBConfig) (req : HttpRequest) :
    _check_signature hmacHex cfg req =
      (if secret_configured cfg && (py_truthy req.signature = false) then
        some ⟨401, some "Missing Signature"⟩
      else if secret_configured cfg && req.content.isNone then
        some ⟨400, some "Missing Content"⟩
      else if secret_configured cfg &&
          (req.signature.getD "" ≠
            "sha1=" ++ hmacHex (cfg.secret.getD "") (req.content.getD .empty)) then
        some ⟨403, some "Signature is invalid"⟩
      else none) := by
  cases hsec : cfg.secret with
  | none => simp [_check_signature, secret_configured, hsec]
  | some sec =>
    by_cases hse : sec = ""
    · simp [_check_signature, secret_configured, hsec, hse]
    · cases hsig : py_truthy req.signature with
      | false =>
        simp [_check_signature, secret_configured, hsec, hse, hsig]
      | true =>
        cases hcon : req.content with
        | none => simp [_check_signature, secret_configured, hsec, hse, hsig, hcon]
        | some body =>
          by_cases heq : req.signature.getD "" = "sha1=" ++ hmacHex sec body <;>
            simp [_check_signature, secret_configured, hsec, hse, hsig, hcon, heq]

/-- Cascade form of `_check_access_token`, used to align the handler with
the spec-side status table. -/
theorem check_access_token_eq (cfg : OBConfig) (auth : Option String) :
    _check_access_token cfg auth =
      (if token_configured cfg &&
          (get_auth_bearer auth ≠ some (cfg.accessToken.getD "")) then
        some ⟨403,
          some (if py_truthy (get_auth_bearer auth) then
              "Authorization Header is invalid"
            else "Missing Authorization Header")⟩
      else none) := by
  cases hacc : cfg.accessToken with
  | none => simp [_check_access_token, token_configured, hacc]
  | some acc =>
    by_cases hae : acc = ""
    · simp [_check_access_token, token_configured, hacc, hae]
    · by_cases htok : get_auth_bearer auth = some acc <;>
        simp [_check_access_token, token_configured, hacc, hae, htok]

/-- Counterexample to claim C8 as stated.  With a secret configured, a
request with the identity header present, NO signature header and NO body
satisfies the claim's 400-clause ("signature required and body missing"),
but the handler answers 401: the missing-signature test runs before the
missing-body test. -/
theorem claim_C8_cx :
    (_handle_http (fun _ _ => "") ⟨some "sek", none⟩ ([] : Registry Nat)
        (fun _ => none) ⟨[], []⟩ ⟨some "1", none, none, none⟩).response
        = .ok ⟨401, some "Missing Signature"⟩ ∧
      (401 : Nat) ≠ 400 :=
  ⟨rfl, by decide⟩

/-- Amended claim C8: the status answered by the webhook handler is
exactly: 400 for a missing/empty identity header; 401 when a secret is
configured and the signature header is missing (this takes precedence
over the missing-body 400); 400 when a secret is configured, a signature
header is present and the body is missing; 403 for an invalid signature;
403 when a token is configured and the presented bearer token is missing
or different; 204 when all configured checks pass and the body is absent
or valid JSON; and no response at all (the handler raises) when the
checks pass but a present body is not valid JSON.  Stated as a refinement
against `specResponseStatus`, the table written from these words. -/
theorem claim_C8_amended {E : Type} (hmacHex : String → Body → String)
    (cfg : OBConfig) (reg : Registry E) (base : JSON → Option E)
    (s : AdapterState) (req : HttpRequest) :
    statusOf (_handle_http hmacHex cfg reg base s req).response
      = specResponseStatus hmacHex cfg req := by
  cases hps : py_truthy req.selfId with
  | false => simp [_handle_http, specResponseStatus, statusOf, hps]
  | true =>
    have hps' : ¬(py_truthy req.selfId = false) := by simp [hps]
    rw [_handle_http, check_signature_eq, check_access_token_eq,
      specResponseStatus, if_pos hps, if_neg hps']
    by_cases h1 :
        (secret_configured cfg && decide (py_truthy req.signature = false)) = true
    · rw [if_pos h1, if_pos h1]
      simp [statusOf]
    · rw [if_neg h1, if_neg h1]
      by_cases h2 : (secret_configured cfg && req.content.isNone) = true
      · rw [if_pos h2, if_pos h2]
        simp [statusOf]
      · rw [if_neg h2, if_neg h2]
        by_cases h3 : (secret_configured cfg &&
            decide (req.signature.getD "" ≠
              "sha1=" ++ hmacHex (cfg.secret.getD "")
                (req.content.getD Body.empty))) = true
        · rw [if_pos h3, if_pos h3]
          simp [statusOf]
        · rw [if_neg h3, if_neg h3]
          by_cases h4 : (token_configured cfg &&
              decide (get_auth_bearer req.authorization ≠
                some (cfg.accessToken.getD ""))) = true
          · rw [if_pos h4, if_pos h4]
            simp [statusOf]
          · rw [if_neg h4, if_neg h4]
            cases hcon : req.content with
            | none => simp [hcon, statusOf]
            | some body =>
              cases body with
              | json j =>
                cases hev : json_to_event reg base j none with
                | event e =>
                  by_cases hmem : req.selfId.getD "" ∈ s.bots <;>
                    simp [hcon, hev, hmem, statusOf]
                | stored sid p => simp [hcon, hev, statusOf]
                | nothing => simp [hcon, hev, statusOf]
              | empty => simp [hcon, statusOf]
              | invalid => simp [hcon, statusOf]

/-- Claim C9: the forward-link supervisor never terminates on a failure:
every consumed iteration outcome — connect failure or post-connect
session error — produces exactly one connect attempt and exactly one
sleep, every sleep in the trace lasts exactly `RECONNECT_INTERVAL` (no
backoff growth), the loop is compositional (after any finite run it
continues consuming further outcomes exactly the same way, so there is no
retry cap), and the interval is the fixed constant 3 (the source's
`3.0`). -/
theorem claim_C9_thm (outs rest : List LinkOutcome) :
    (forward_ws_trace outs).count .attempt = outs.length ∧
      (forward_ws_trace outs).count (.sleep RECONNECT_INTERVAL) = outs.length ∧
      ((forward_ws_trace outs).all fun a =>
        match a with
        | .sleep d => decide (d = RECONNECT_INTERVAL)
        | _ => true) = true ∧
      forward_ws_trace (outs ++ rest)
        = forward_ws_trace outs ++ forward_ws_trace rest ∧
      RECONNECT_INTERVAL = 3 := by
  refine ⟨?_, ?_, ?_, ?_, rfl⟩
  · induction outs with
    | nil => rfl
    | cons o os ih => cases o <;> simp [forward_ws_trace, List.count_cons, ih]
  · induction outs with
    | nil => rfl
    | cons o os ih => cases o <;> simp [forward_ws_trace, List.count_cons, ih]
  · induction outs with
    | nil => rfl
    | cons o os ih => cases o <;> simp [forward_ws_trace, ih]
  · induction outs with
    | nil => rfl
    | cons o os ih => cases o <;> simp [forward_ws_trace, ih]

/-- Claim C10: an identity registered as a bot by the webhook HTTP path
has no entry in the connection registry, yet a reverse WebSocket
handshake presenting the same identity is rejected with close code 1008
("Duplicate X-Self-ID") and leaves the state unchanged — the duplicate
check tests the bot table, not the connection table. -/
theorem claim_C10_thm {E : Type} (hmacHex : String → Body → String)
    (cfg : OBConfig) (reg : Registry E) (base : JSON → Option E)
    (s : AdapterState) (req : HttpRequest) (sid : String)
    (auth2 : Option String) (w : Nat) (j : JSON) (e : E)
    (hsid : req.selfId = some sid) (hne : sid ≠ "")
    (hsig : _check_signature hmacHex cfg req = none)
    (htok : _check_access_token cfg req.authorization = none)
    (hbody : req.content = some (.json j))
    (hev : json_to_event reg base j none = .event e)
    (hnew : sid ∉ s.bots) (hnoconn : dict_get s.connections sid = none) :
    sid ∈ ((_handle_http hmacHex cfg reg base s req).state).bots ∧
      ((_handle_http hmacHex cfg reg base s req).state).connections
        = s.connections ∧
      dict_get ((_handle_http hmacHex cfg reg base s req).state).connections sid
        = none ∧
      _handle_ws cfg ((_handle_http hmacHex cfg reg base s req).state)
        (some sid) auth2 w
        = (.closed 1008 "Duplicate X-Self-ID",
           (_handle_http hmacHex cfg reg base s req).state) := by
  have hstate : (_handle_http hmacHex cfg reg base s req).state
      = AdapterState.mk (sid :: s.bots) s.connections := by
    simp [_handle_http, hsid, py_truthy, hne, hsig, htok, hbody, hev, hnew]
  rw [hstate]
  refine ⟨List.mem_cons_self _ _, rfl, hnoconn, ?_⟩
  simp [_handle_ws, py_truthy, hne]

/-- Witness for C10 at a concrete run: identity "1" becomes an HTTP-only
bot, then its reverse-WebSocket handshake is refused. -/
theorem claim_C10_witness :
    ("1" ∉ (AdapterState.mk [] []).bots) ∧
      _handle_ws ⟨none, none⟩
        ((_handle_http (fun _ _ => "") ⟨none, none⟩ ([] : Registry Nat)
          (fun _ => some 0) ⟨[], []⟩
          ⟨some "1", none, none,
            some (.json (.obj [("post_type", .str "message")]))⟩).state)
        (some "1") none 5
      = (.closed 1008 "Duplicate X-Self-ID",
         (_handle_http (fun _ _ => "") ⟨none, none⟩ ([] : Registry Nat)
          (fun _ => some 0) ⟨[], []⟩
          ⟨some "1", none, none,
            some (.json (.obj [("post_type", .str "message")]))⟩).state) :=
  ⟨by decide,
    (claim_C10_thm (fun _ _ => "") ⟨none, none⟩ ([] : Registry Nat)
      (fun _ => some 0) ⟨[], []⟩
      ⟨some "1", none, none, some (.json (.obj [("post_type", .str "message")]))⟩
      "1" none 5 (.obj [("post_type", .str "message")]) 0
      rfl (by decide) rfl rfl rfl rfl (by decide) rfl).2.2.2⟩
